/-
Verification of the OP receipt L1-fee metadata core
(`crates/optimism/rpc/src/eth/receipt.rs`).

The builder (`OpReceiptFieldsBuilder`) and the outer assembly
(`build_op_receipt_meta`) are embedded directly from the source.  The L1 fee
model it invokes (`revm::L1BlockInfo::{l1_tx_data_fee, l1_data_gas}` together
with the hardfork-dispatch wrapper `RethL1BlockInfo`) is not part of the given
source tree; it is modelled below from the specification's description of the
`L1FeeModel` component and validated against the specification's pinned
concrete scenario (OP Mainnet block 124665056).

Machine integers: `U256` values are embedded as `Nat` with explicitly
saturating arithmetic capped at `U256MAX`; the `u128` output width is reached
through an explicitly saturating narrowing (`saturatingTo128`).  The one `f64`
field (`l1_fee_scalar`) is embedded as an exact rational `scalar / 1000000`.
Byte strings are `List Nat` with entries read modulo 256.
-/
import Mathlib

deriving instance DecidableEq for Except

/-- Largest value representable in the `u128` output width. -/
def U128MAX : Nat := 2 ^ 128 - 1

/-- Largest value representable in the `U256` intermediate width. -/
def U256MAX : Nat := 2 ^ 256 - 1

/-- `U256::saturating_add`: clamped at the maximum instead of wrapping. -/
def u256satAdd (a b : Nat) : Nat := min (a + b) U256MAX

/-- `U256::saturating_mul`: clamped at the maximum instead of wrapping. -/
def u256satMul (a b : Nat) : Nat := min (a * b) U256MAX

/-- `U256::saturating_sub`: on `Nat` subtraction already floors at zero. -/
def u256satSub (a b : Nat) : Nat := a - b

/-- `U256::wrapping_div`: division cannot wrap; all divisors used are nonzero
constants (on `Nat`, division by zero gives zero and is never reached). -/
def u256wrapDiv (a b : Nat) : Nat := a / b

/-- `U256::saturating_to::<u128>()`: the width-narrowing conversion; values
exceeding `U128MAX` are clamped to `U128MAX`. -/
def saturatingTo128 (n : Nat) : Nat := min n U128MAX

/-- Modelled from the spec: the hardfork revisions the fee model dispatches
over (glossary: Bedrock/Regolith/Ecotone/Fjord; Canyon does not alter the
fee formula and is not queried by the dispatch ladder). -/
inductive SpecId where
  | BEDROCK
  | REGOLITH
  | ECOTONE
  | FJORD
deriving DecidableEq

/-- Linear order of the hardfork revisions. -/
def SpecId.rank : SpecId → Nat
  | .BEDROCK => 0
  | .REGOLITH => 1
  | .ECOTONE => 2
  | .FJORD => 3

/-- `spec_id.is_enabled_in(other)`: this revision is at or past `other`. -/
def SpecId.isEnabledIn (self other : SpecId) : Bool :=
  other.rank ≤ self.rank

/-- Modelled from the spec: the external `HardforkGate` capability — one
boolean activation predicate per queried fork name, keyed by timestamp
(`chain_spec.hardforks.is_<fork>_active_at_timestamp`). -/
structure ChainSpec where
  is_bedrock_active_at_timestamp : Nat → Bool
  is_regolith_active_at_timestamp : Nat → Bool
  is_ecotone_active_at_timestamp : Nat → Bool
  is_fjord_active_at_timestamp : Nat → Bool

namespace fastlz

/-- Byte `i` of a byte string packed little-endian into one `Nat`. -/
def byteAt (inp i : Nat) : Nat := (inp >>> (8 * i)) % 256

/-- Packs a byte list into one `Nat`, byte `i` at weight `256 ^ i`; entries
are reduced modulo 256 as `u8` values are. -/
def packBytes (bs : List Nat) : Nat :=
  bs.foldr (fun b acc => b % 256 + 256 * acc) 0

/-- Modelled from the spec: the FastLZ hash used by the Fjord-era size
estimator — `(v * 2654435769) >> 19 & 0x1fff` on `u64`. -/
def flzHash (v : Nat) : Nat := v * 2654435769 % 2 ^ 64 / 2 ^ 19 % 8192

/-- Three consecutive input bytes read as one little-endian 24-bit value. -/
def u24 (inp i : Nat) : Nat :=
  byteAt inp i + 256 * byteAt inp (i + 1) + 65536 * byteAt inp (i + 2)

/-- Slot `i` of the 8192-entry hash table, packed 32 bits per slot into one
`Nat`. -/
def htGet (h i : Nat) : Nat := (h >>> (32 * i)) % 4294967296

/-- Writes slot `i` of the packed hash table. -/
def htSet (h i v : Nat) : Nat :=
  h - (htGet h i <<< (32 * i)) + ((v % 4294967296) <<< (32 * i))

/-- Compressed size of a literal run of length `r`: 33 bytes per full chunk
of 32 literals, plus `rem + 1` for a nonempty remainder. -/
def flzLiterals (r size : Nat) : Nat :=
  let size := size + 33 * (r / 32)
  let r := r % 32
  if r ≠ 0 then size + r + 1 else size

/-- Compressed size of one match whose comparison loop returned `l`: three
bytes per 262-length chunk, then two or three bytes for the remainder. -/
def flzMatch (l size : Nat) : Nat :=
  let l := l - 1
  let size := size + 3 * (l / 262)
  if l % 262 ≤ 5 then size + 2 else size + 3

/-- Match-extension comparison loop: counts while `l < e`, and the counter is
also advanced on the terminating mismatch iteration (so a mismatch-terminated
comparison returns the matched length plus one). -/
def flzCmpLoop (inp p q : Nat) : Nat → Nat → Nat → Nat
  | 0, l, _ => l
  | fuel + 1, l, e =>
    if l < e then
      if byteAt inp (p + l) ≠ byteAt inp (q + l) then l + 1
      else flzCmpLoop inp p q fuel (l + 1) e
    else l

/-- `cmp(p, q, e)`: compares `inp[p..]` against `inp[q..]` bounded by `e`. -/
def flzCmp (inp p q e : Nat) : Nat := flzCmpLoop inp p q (e - q) 0 (e - q)

/-- Inner search loop: hashes the 3-byte sequence at `idx`, replacing the
table entry, until a prior occurrence within distance 8192 matches or the
index limit is reached.  Returns `(r, idx, htab)`. -/
def flzSearch (inp idxLimit : Nat) : Nat → Nat → Nat → Nat × Nat × Nat
  | 0, idx, htab => (0, idx, htab)
  | fuel + 1, idx, htab =>
    let seq := u24 inp idx
    let h := flzHash seq
    let r := htGet htab h
    let htab := htSet htab h idx
    let distance := idx - r
    if idxLimit ≤ idx then (r, idx, htab)
    else if distance < 8192 ∧ seq = u24 inp r then (r, idx + 1, htab)
    else flzSearch inp idxLimit fuel (idx + 1) htab

/-- Outer compression loop over `(idx, anchor, size, htab)`; on exit adds the
final literal run `len - anchor`. -/
def flzOuter (inp len idxLimit : Nat) : Nat → Nat → Nat → Nat → Nat → Nat
  | 0, _, anchor, size, _ => flzLiterals (len - anchor) size
  | fuel + 1, idx, anchor, size, htab =>
    if idx < idxLimit then
      match flzSearch inp idxLimit (idxLimit + 1) idx htab with
      | (r, idx, htab) =>
        if idxLimit ≤ idx then flzLiterals (len - anchor) size
        else
          let idx := idx - 1
          let size := if anchor < idx then flzLiterals (idx - anchor) size else size
          let l := flzCmp inp (r + 3) (idx + 3) (idxLimit + 9)
          let size := flzMatch l size
          let htab := htSet htab (flzHash (u24 inp (idx + l))) (idx + l)
          let htab := htSet htab (flzHash (u24 inp (idx + l + 1))) (idx + l + 1)
          flzOuter inp len idxLimit fuel (idx + l + 2) (idx + l + 2) size htab
    else flzLiterals (len - anchor) size

/-- Modelled from the spec: `flz_compress_len` — the FastLZ compressed-size
estimate underlying the Fjord-era "size-denominated" gas measure of §4.1
(the exact coefficient contract versioned by hardfork); this function is a
collaborator of the L1 fee model and is absent from the given source tree.
Validated against the specification's pinned scenario for OP Mainnet block
124665056. -/
def flz_compress_len (bs : List Nat) : Nat :=
  let len := bs.length
  let inp := packBytes bs
  let idxLimit := if len < 13 then 0 else len - 13
  flzOuter inp len idxLimit (len + 2) 2 0 0 0

end fastlz

namespace revm

/-- Modelled from the spec: the `L1Context` snapshot (§6) as carried by
`revm::L1BlockInfo` — L1 base fee, optional legacy fee overhead, base-fee
scalar, optional blob base fee and blob scalar; `empty_scalars` marks the
Ecotone transition block whose context still lacks the split scalars. -/
structure L1BlockInfo where
  l1_base_fee : Nat
  l1_fee_overhead : Option Nat
  l1_base_fee_scalar : Nat
  l1_blob_base_fee : Option Nat
  l1_blob_base_fee_scalar : Option Nat
  empty_scalars : Bool
deriving DecidableEq

/-- Gas charged per zero byte of calldata. -/
def ZERO_BYTE_COST : Nat := 4

/-- Gas charged per nonzero byte of calldata. -/
def NON_ZERO_BYTE_COST : Nat := 16

/-- Modelled from the spec: the Fjord-era estimated transaction size,
`max(100_000_000, flz_size * 836_500 - 42_585_600)` with saturating
arithmetic. -/
def tx_estimated_size_fjord (input : List Nat) : Nat :=
  max (u256satSub (u256satMul (fastlz.flz_compress_len input) 836500) 42585600)
    100000000

/-- Modelled from the spec: `dataGas` (§4.1) — the size-denominated
counterpart of the fee.  From Fjord it is the estimated size scaled by the
nonzero-byte cost over the fixed precision denominator; before Fjord it is
the per-byte cost table over the raw bytes, with a fixed 68-nonzero-byte
allowance added before Regolith. -/
def L1BlockInfo.data_gas (_info : L1BlockInfo) (input : List Nat)
    (spec_id : SpecId) : Nat :=
  if spec_id.isEnabledIn .FJORD then
    u256wrapDiv (u256satMul (tx_estimated_size_fjord input) NON_ZERO_BYTE_COST)
      1000000
  else
    let rollup_data_gas_cost := input.foldl
      (fun acc b => acc + if b % 256 = 0 then ZERO_BYTE_COST else NON_ZERO_BYTE_COST) 0
    if ¬ spec_id.isEnabledIn .REGOLITH then
      u256satAdd rollup_data_gas_cost (NON_ZERO_BYTE_COST * 68)
    else rollup_data_gas_cost

/-- Modelled from the spec: the post-Ecotone blended price (§4.1) — the
base-fee scalar applied to sixteen times the L1 base fee plus the blob
scalar applied to the blob base fee (absent blob data counts as zero). -/
def L1BlockInfo.calculate_l1_fee_scaled_ecotone (info : L1BlockInfo) : Nat :=
  let calldata_cost_per_byte :=
    u256satMul (u256satMul info.l1_base_fee NON_ZERO_BYTE_COST)
      info.l1_base_fee_scalar
  let blob_cost_per_byte :=
    u256satMul (info.l1_blob_base_fee.getD 0) (info.l1_blob_base_fee_scalar.getD 0)
  u256satAdd calldata_cost_per_byte blob_cost_per_byte

/-- Modelled from the spec: the pre-Ecotone `dataFee` (§4.1) — data gas plus
the legacy overhead, priced by the single dynamic scalar over the fixed
precision denominator 1,000,000. -/
def L1BlockInfo.calculate_tx_l1_cost_bedrock (info : L1BlockInfo)
    (input : List Nat) (spec_id : SpecId) : Nat :=
  let rollup_data_gas_cost := info.data_gas input spec_id
  u256wrapDiv
    (u256satMul
      (u256satMul (u256satAdd rollup_data_gas_cost (info.l1_fee_overhead.getD 0))
        info.l1_base_fee)
      info.l1_base_fee_scalar)
    1000000

/-- Modelled from the spec: the Ecotone `dataFee` (§4.1) — data gas times the
blended price, divided by the second fixed denominator; a context still
lacking the split scalars falls back to the pre-Ecotone formula. -/
def L1BlockInfo.calculate_tx_l1_cost_ecotone (info : L1BlockInfo)
    (input : List Nat) : Nat :=
  if info.empty_scalars then info.calculate_tx_l1_cost_bedrock input .ECOTONE
  else
    let rollup_data_gas_cost := info.data_gas input .ECOTONE
    u256wrapDiv
      (u256satMul rollup_data_gas_cost info.calculate_l1_fee_scaled_ecotone)
      (1000000 * NON_ZERO_BYTE_COST)

/-- Modelled from the spec: the Fjord `dataFee` — estimated size times the
blended price over the fixed precision denominator `10^12`. -/
def L1BlockInfo.calculate_tx_l1_cost_fjord (info : L1BlockInfo)
    (input : List Nat) : Nat :=
  let l1_fee_scaled := info.calculate_l1_fee_scaled_ecotone
  let estimated_size := tx_estimated_size_fjord input
  u256wrapDiv (u256satMul estimated_size l1_fee_scaled) 1000000000000

/-- Modelled from the spec: `dataFee` dispatch (§4.1) — zero for empty input
or a deposit envelope (leading byte `0x7E`), then the formula version active
for the given revision. -/
def L1BlockInfo.calculate_tx_l1_cost (info : L1BlockInfo) (input : List Nat)
    (spec_id : SpecId) : Nat :=
  if input = [] ∨ input.head? = some 0x7E then 0
  else if spec_id.isEnabledIn .FJORD then info.calculate_tx_l1_cost_fjord input
  else if spec_id.isEnabledIn .ECOTONE then info.calculate_tx_l1_cost_ecotone input
  else info.calculate_tx_l1_cost_bedrock input spec_id

/-- Modelled from the spec: the hardfork dispatch ladder (§4.1, "must
dispatch to the correct version based on timestamp") — the newest active
revision, or no revision at all when none of the forks is active. -/
def specIdAtTimestamp (chain_spec : ChainSpec) (timestamp : Nat) : Option SpecId :=
  if chain_spec.is_fjord_active_at_timestamp timestamp then some .FJORD
  else if chain_spec.is_ecotone_active_at_timestamp timestamp then some .ECOTONE
  else if chain_spec.is_regolith_active_at_timestamp timestamp then some .REGOLITH
  else if chain_spec.is_bedrock_active_at_timestamp timestamp then some .BEDROCK
  else none

/-- Modelled from the spec: `L1FeeModel.compute`'s fee half (§4.1) — zero for
deposit transactions, an error when no hardfork revision is active, otherwise
the dispatched `dataFee` formula.  The error payload is irrelevant to the
caller (it is mapped away) and is elided. -/
def L1BlockInfo.l1_tx_data_fee (info : L1BlockInfo) (chain_spec : ChainSpec)
    (timestamp : Nat) (input : List Nat) (is_deposit : Bool) :
    Except Unit Nat :=
  if is_deposit then .ok 0
  else
    match specIdAtTimestamp chain_spec timestamp with
    | none => .error ()
    | some spec_id => .ok (info.calculate_tx_l1_cost input spec_id)

/-- Modelled from the spec: `L1FeeModel.compute`'s gas half (§4.1) — an error
when no hardfork revision is active, otherwise the dispatched `dataGas`
formula. -/
def L1BlockInfo.l1_data_gas (info : L1BlockInfo) (chain_spec : ChainSpec)
    (timestamp : Nat) (input : List Nat) : Except Unit Nat :=
  match specIdAtTimestamp chain_spec timestamp with
  | none => .error ()
  | some spec_id => .ok (info.data_gas input spec_id)

end revm
/-- Bytes 0..97 of the documented raw transaction. -/
def tx1Chunk0 : List Nat := [
  2, 249, 4, 148, 10, 131, 3, 251, 167, 132, 1, 214, 210, 121, 132, 1, 219, 43, 109, 131, 4,
  147, 224, 148, 62, 111, 79, 120, 102, 101, 76, 24, 245, 54, 23, 7, 128, 52, 74, 168, 119, 41,
  80, 182, 128, 185, 4, 36, 106, 118, 18, 2, 0, 0, 0, 0, 0, 0, 0, 0, 0, 0, 0, 0, 8, 112, 0, 163,
  0, 222, 114, 0, 56, 43, 85, 212, 0, 69, 0, 0, 0, 229, 214, 14, 0, 0, 0, 0, 0, 0, 0, 0, 0, 0,
  0, 0, 0, 0]

/-- Bytes 98..195 of the documented raw transaction. -/
def tx1Chunk1 : List Nat := [
  0, 0, 0, 0, 0, 0, 0, 0, 0, 0, 0, 0, 0, 0, 0, 0, 0, 0, 0, 0, 0, 0, 0, 0, 0, 0, 0, 0, 0, 0, 0,
  0, 0, 0, 0, 0, 0, 0, 0, 0, 0, 0, 0, 0, 0, 0, 0, 0, 1, 64, 0, 0, 0, 0, 0, 0, 0, 0, 0, 0, 0, 0,
  0, 0, 0, 0, 0, 0, 0, 0, 0, 0, 0, 0, 0, 0, 0, 0, 0, 0, 0, 1, 0, 0, 0, 0, 0, 0, 0, 0, 0, 0, 0,
  0, 0, 0, 0, 0]

/-- Bytes 196..293 of the documented raw transaction. -/
def tx1Chunk2 : List Nat := [
  0, 0, 0, 0, 0, 0, 0, 0, 0, 0, 0, 0, 0, 0, 0, 0, 0, 0, 0, 0, 0, 0, 0, 0, 0, 0, 0, 0, 0, 0, 0,
  0, 0, 0, 0, 0, 0, 0, 0, 0, 0, 0, 0, 0, 0, 0, 0, 0, 0, 0, 0, 0, 0, 0, 0, 0, 0, 0, 0, 0, 0, 0,
  0, 0, 0, 0, 0, 0, 0, 0, 0, 0, 0, 0, 0, 0, 0, 0, 0, 0, 0, 0, 0, 0, 0, 0, 0, 0, 0, 0, 0, 0, 0,
  0, 0, 0, 0, 0]

/-- Bytes 294..391 of the documented raw transaction. -/
def tx1Chunk3 : List Nat := [
  0, 0, 0, 0, 0, 0, 0, 0, 0, 0, 0, 0, 0, 0, 0, 0, 0, 0, 0, 0, 0, 0, 0, 0, 0, 0, 0, 0, 0, 0, 0,
  0, 0, 0, 0, 0, 0, 0, 0, 0, 0, 0, 0, 0, 0, 0, 0, 0, 0, 0, 0, 0, 0, 0, 0, 0, 0, 0, 0, 0, 0, 0,
  0, 0, 0, 0, 0, 0, 0, 0, 0, 0, 0, 0, 0, 0, 3, 160, 0, 0, 0, 0, 0, 0, 0, 0, 0, 0, 0, 0, 0, 0, 0,
  0, 0, 0, 0, 0]

/-- Bytes 392..489 of the documented raw transaction. -/
def tx1Chunk4 : List Nat := [
  0, 0, 0, 0, 0, 0, 0, 0, 0, 0, 2, 36, 130, 173, 86, 203, 0, 0, 0, 0, 0, 0, 0, 0, 0, 0, 0, 0, 0,
  0, 0, 0, 0, 0, 0, 0, 0, 0, 0, 0, 0, 0, 0, 0, 0, 0, 0, 32, 0, 0, 0, 0, 0, 0, 0, 0, 0, 0, 0, 0,
  0, 0, 0, 0, 0, 0, 0, 0, 0, 0, 0, 0, 0, 0, 0, 0, 0, 0, 0, 2, 0, 0, 0, 0, 0, 0, 0, 0, 0, 0, 0,
  0, 0, 0, 0, 0, 0, 0]

/-- Bytes 490..587 of the documented raw transaction. -/
def tx1Chunk5 : List Nat := [
  0, 0, 0, 0, 0, 0, 0, 0, 0, 0, 0, 0, 0, 64, 0, 0, 0, 0, 0, 0, 0, 0, 0, 0, 0, 0, 0, 0, 0, 0, 0,
  0, 0, 0, 0, 0, 0, 0, 0, 0, 0, 0, 0, 0, 1, 32, 0, 0, 0, 0, 0, 0, 0, 0, 0, 0, 0, 0, 220, 111,
  244, 77, 93, 147, 44, 189, 119, 181, 46, 86, 18, 186, 5, 41, 220, 98, 38, 241, 0, 0, 0, 0, 0,
  0, 0, 0, 0, 0, 0, 0, 0, 0, 0, 0, 0, 0, 0, 0]

/-- Bytes 588..685 of the documented raw transaction. -/
def tx1Chunk6 : List Nat := [
  0, 0, 0, 0, 0, 0, 0, 0, 0, 0, 0, 0, 0, 0, 0, 0, 0, 0, 0, 0, 0, 0, 0, 0, 0, 0, 0, 0, 0, 0, 0,
  0, 0, 0, 0, 0, 0, 0, 0, 0, 0, 0, 0, 96, 0, 0, 0, 0, 0, 0, 0, 0, 0, 0, 0, 0, 0, 0, 0, 0, 0, 0,
  0, 0, 0, 0, 0, 0, 0, 0, 0, 0, 0, 0, 0, 68, 9, 94, 167, 179, 0, 0, 0, 0, 0, 0, 0, 0, 0, 0, 0,
  0, 33, 196, 146, 129, 9, 172]

/-- Bytes 686..783 of the documented raw transaction. -/
def tx1Chunk7 : List Nat := [
  176, 101, 154, 136, 174, 83, 41, 181, 55, 74, 48, 36, 105, 76, 0, 0, 0, 0, 0, 0, 0, 0, 0, 0,
  0, 0, 0, 0, 0, 0, 0, 0, 0, 0, 0, 0, 0, 4, 155, 156, 169, 166, 148, 52, 0, 0, 0, 0, 0, 0, 0, 0,
  0, 0, 0, 0, 0, 0, 0, 0, 0, 0, 0, 0, 0, 0, 0, 0, 0, 0, 0, 0, 0, 0, 0, 0, 0, 0, 0, 0, 0, 0, 0,
  0, 0, 0, 33, 196, 146, 129, 9, 172, 176, 101, 154, 136, 174, 83]

/-- Bytes 784..881 of the documented raw transaction. -/
def tx1Chunk8 : List Nat := [
  41, 181, 55, 74, 48, 36, 105, 76, 0, 0, 0, 0, 0, 0, 0, 0, 0, 0, 0, 0, 0, 0, 0, 0, 0, 0, 0, 0,
  0, 0, 0, 0, 0, 0, 0, 0, 0, 0, 0, 0, 0, 0, 0, 0, 0, 0, 0, 0, 0, 0, 0, 0, 0, 0, 0, 0, 0, 0, 0,
  0, 0, 0, 0, 0, 0, 0, 0, 0, 0, 0, 0, 96, 0, 0, 0, 0, 0, 0, 0, 0, 0, 0, 0, 0, 0, 0, 0, 0, 0, 0,
  0, 0, 0, 0, 0, 0, 0, 0]

/-- Bytes 882..979 of the documented raw transaction. -/
def tx1Chunk9 : List Nat := [
  0, 0, 0, 0, 0, 36, 182, 181, 95, 37, 0, 0, 0, 0, 0, 0, 0, 0, 0, 0, 0, 0, 0, 0, 0, 0, 0, 0, 0,
  0, 0, 0, 0, 4, 155, 156, 169, 166, 148, 52, 0, 0, 0, 0, 0, 0, 0, 0, 0, 0, 0, 0, 0, 0, 0, 0, 0,
  0, 0, 0, 0, 0, 0, 0, 0, 0, 0, 0, 0, 0, 0, 0, 0, 0, 0, 0, 0, 0, 0, 0, 0, 0, 0, 0, 0, 0, 0, 0,
  0, 0, 0, 0, 0, 0, 0, 0, 0, 0]

/-- Bytes 980..1077 of the documented raw transaction. -/
def tx1Chunk10 : List Nat := [
  0, 0, 0, 0, 0, 0, 0, 0, 0, 0, 0, 0, 0, 0, 0, 0, 0, 0, 0, 0, 0, 0, 0, 0, 0, 0, 0, 0, 0, 0, 0,
  65, 94, 194, 20, 163, 149, 11, 234, 131, 154, 126, 111, 187, 11, 161, 84, 10, 194, 7, 106,
  205, 80, 130, 14, 45, 94, 248, 61, 9, 2, 205, 255, 178, 74, 71, 175, 247, 222, 81, 144, 41, 7,
  105, 196, 240, 169, 198, 250, 191, 99, 1, 41, 134, 160, 213, 144, 177, 181, 113, 84, 122, 140,
  112, 80, 234, 27, 0]

/-- Bytes 1078..1175 of the documented raw transaction. -/
def tx1Chunk11 : List Nat := [
  0, 0, 0, 0, 0, 0, 0, 0, 0, 0, 0, 0, 0, 0, 0, 0, 0, 0, 0, 0, 0, 0, 0, 0, 0, 0, 0, 0, 0, 0, 192,
  128, 160, 109, 183, 112, 230, 226, 90, 97, 127, 233, 101, 47, 9, 88, 189, 155, 214, 228, 146,
  129, 165, 48, 54, 144, 99, 134, 237, 57, 236, 72, 234, 223, 99, 160, 127, 71, 207, 81, 164,
  164, 11, 68, 148, 207, 38, 239, 198, 134, 112, 154, 155, 3, 147, 158, 32, 238, 39, 229, 150,
  130, 245, 250, 165, 54, 102, 126]

/-- OP Mainnet transaction at index 1 in block 124665056: the 1176 raw envelope
bytes documented in the source, assembled from 98-byte chunks (chunking keeps
every kernel evaluation of the byte string shallow). -/
def TX_1_OP_MAINNET_BLOCK_124665056 : List Nat :=
  tx1Chunk0 ++ tx1Chunk1 ++ tx1Chunk2 ++ tx1Chunk3 ++ tx1Chunk4 ++ tx1Chunk5 ++ tx1Chunk6 ++ tx1Chunk7 ++ tx1Chunk8 ++ tx1Chunk9 ++ tx1Chunk10 ++ tx1Chunk11

/-- `OpEthApiError`: the two error variants produced by
`OpReceiptFieldsBuilder::l1_block_info` (`receipt.rs` lines 125 and 132). -/
inductive OpEthApiError where
  | L1BlockFeeError
  | L1BlockGasError
deriving DecidableEq

/-- `TransactionSigned` restricted to the two observations the builder makes
of it: `envelope_encoded()` (the canonical envelope bytes) and
`is_deposit()`. -/
structure TransactionSigned where
  envelope_encoded : List Nat
  is_deposit : Bool
deriving DecidableEq

/-- `Receipt` restricted to the two fields `build_op_receipt_meta` reads:
the optional deposit nonce and deposit receipt version. -/
structure Receipt where
  deposit_nonce : Option Nat
  deposit_receipt_version : Option Nat
deriving DecidableEq

namespace op_alloy

/-- `op_alloy_rpc_types::receipt::L1BlockInfo`: the fee half of the output
record (`receipt.rs` lines 177-185).  The `f64` field `l1_fee_scalar` is
embedded as an exact rational. -/
structure L1BlockInfo where
  l1_gas_price : Option Nat
  l1_gas_used : Option Nat
  l1_fee : Option Nat
  l1_fee_scalar : Option ℚ
  l1_base_fee_scalar : Option Nat
  l1_blob_base_fee : Option Nat
  l1_blob_base_fee_scalar : Option Nat
deriving DecidableEq

/-- `OptimismTransactionReceiptFields`: the finalized output record
(`receipt.rs` lines 176-188). -/
structure OptimismTransactionReceiptFields where
  l1_block_info : op_alloy.L1BlockInfo
  deposit_nonce : Option Nat
  deposit_receipt_version : Option Nat
deriving DecidableEq

end op_alloy

/-- `OpReceiptFieldsBuilder` (`receipt.rs` lines 79-104): the fee-field
accumulator; every field except the timestamp is optional. -/
structure OpReceiptFieldsBuilder where
  l1_block_timestamp : Nat
  l1_fee : Option Nat
  l1_data_gas : Option Nat
  l1_fee_scalar : Option ℚ
  l1_base_fee : Option Nat
  deposit_nonce : Option Nat
  deposit_receipt_version : Option Nat
  l1_base_fee_scalar : Option Nat
  l1_blob_base_fee : Option Nat
  l1_blob_base_fee_scalar : Option Nat
deriving DecidableEq

/-- `OpReceiptFieldsBuilder::default()`: timestamp zero, all fields unset. -/
def OpReceiptFieldsBuilder.default : OpReceiptFieldsBuilder :=
  { l1_block_timestamp := 0
    l1_fee := none
    l1_data_gas := none
    l1_fee_scalar := none
    l1_base_fee := none
    deposit_nonce := none
    deposit_receipt_version := none
    l1_base_fee_scalar := none
    l1_blob_base_fee := none
    l1_blob_base_fee_scalar := none }

/-- `OpReceiptFieldsBuilder::new(block_timestamp)` (`receipt.rs` lines
108-110): stores the timestamp, every other field unset. -/
def OpReceiptFieldsBuilder.new (block_timestamp : Nat) : OpReceiptFieldsBuilder :=
  { OpReceiptFieldsBuilder.default with l1_block_timestamp := block_timestamp }

/-- `OpReceiptFieldsBuilder::l1_block_info` (`receipt.rs` lines 113-147):
invokes the fee model on the envelope bytes at the stored timestamp, mapping
a fee failure to `L1BlockFeeError` and a gas failure to `L1BlockGasError`;
on success populates the seven fee fields:
`l1_fee` (saturating-narrowed fee), `l1_data_gas` (gas saturating-plus the
optional fee overhead, saturating-narrowed), `l1_fee_scalar` (the base-fee
scalar over 1,000,000 only when Ecotone is not active at the timestamp),
`l1_base_fee`, `l1_base_fee_scalar` and the two optional blob fields copied
from the context, each saturating-narrowed. -/
def OpReceiptFieldsBuilder.l1_block_info (self : OpReceiptFieldsBuilder)
    (chain_spec : ChainSpec) (tx : TransactionSigned)
    (l1_block_info : revm.L1BlockInfo) :
    Except OpEthApiError OpReceiptFieldsBuilder :=
  let raw_tx := tx.envelope_encoded
  let timestamp := self.l1_block_timestamp
  match l1_block_info.l1_tx_data_fee chain_spec timestamp raw_tx tx.is_deposit with
  | .error _ => .error .L1BlockFeeError
  | .ok fee =>
    match l1_block_info.l1_data_gas chain_spec timestamp raw_tx with
    | .error _ => .error .L1BlockGasError
    | .ok gas =>
      .ok { self with
        l1_fee := some (saturatingTo128 fee)
        l1_data_gas := some (saturatingTo128
          (u256satAdd gas (l1_block_info.l1_fee_overhead.getD 0)))
        l1_fee_scalar :=
          if ¬ chain_spec.is_ecotone_active_at_timestamp timestamp then
            some ((l1_block_info.l1_base_fee_scalar : ℚ) / 1000000)
          else none
        l1_base_fee := some (saturatingTo128 l1_block_info.l1_base_fee)
        l1_base_fee_scalar := some (saturatingTo128 l1_block_info.l1_base_fee_scalar)
        l1_blob_base_fee := l1_block_info.l1_blob_base_fee.map saturatingTo128
        l1_blob_base_fee_scalar :=
          l1_block_info.l1_blob_base_fee_scalar.map saturatingTo128 }

/-- `OpReceiptFieldsBuilder::deposit_nonce` (`receipt.rs` lines 150-153):
pure assignment of the optional deposit nonce (named with a prime because the
Rust setter shares its name with the field it assigns). -/
def OpReceiptFieldsBuilder.deposit_nonce' (self : OpReceiptFieldsBuilder)
    (nonce : Option Nat) : OpReceiptFieldsBuilder :=
  { self with deposit_nonce := nonce }

/-- `OpReceiptFieldsBuilder::deposit_version` (`receipt.rs` lines 156-159):
pure assignment of the optional deposit receipt version. -/
def OpReceiptFieldsBuilder.deposit_version (self : OpReceiptFieldsBuilder)
    (version : Option Nat) : OpReceiptFieldsBuilder :=
  { self with deposit_receipt_version := version }

/-- `OpReceiptFieldsBuilder::build` (`receipt.rs` lines 162-189): the pure
projection into the output record; `l1_base_fee` is emitted as `l1_gas_price`,
`l1_data_gas` as `l1_gas_used`, and the timestamp is discarded. -/
def OpReceiptFieldsBuilder.build (self : OpReceiptFieldsBuilder) :
    op_alloy.OptimismTransactionReceiptFields :=
  { l1_block_info :=
      { l1_gas_price := self.l1_base_fee
        l1_gas_used := self.l1_data_gas
        l1_fee := self.l1_fee
        l1_fee_scalar := self.l1_fee_scalar
        l1_base_fee_scalar := self.l1_base_fee_scalar
        l1_blob_base_fee := self.l1_blob_base_fee
        l1_blob_base_fee_scalar := self.l1_blob_base_fee_scalar }
    deposit_nonce := self.deposit_nonce
    deposit_receipt_version := self.deposit_receipt_version }

/-- `OpEthApi::build_op_receipt_meta` (`receipt.rs` lines 62-73): default
builder (timestamp zero), the L1-context step (`?` propagates its error and
aborts with no output), then both deposit assignments from the receipt, then
`build`. -/
def build_op_receipt_meta (chain_spec : ChainSpec) (tx : TransactionSigned)
    (l1_block_info : revm.L1BlockInfo) (receipt : Receipt) :
    Except OpEthApiError op_alloy.OptimismTransactionReceiptFields :=
  (OpReceiptFieldsBuilder.default.l1_block_info chain_spec tx l1_block_info).map
    fun b =>
      ((b.deposit_nonce' receipt.deposit_nonce).deposit_version
        receipt.deposit_receipt_version).build

/-- The full builder pipeline at an explicit timestamp:
`new → l1_block_info → deposit_nonce → deposit_version → build`. -/
def receipt_pipeline (chain_spec : ChainSpec) (timestamp : Nat)
    (tx : TransactionSigned) (l1_block_info : revm.L1BlockInfo)
    (nonce version : Option Nat) :
    Except OpEthApiError op_alloy.OptimismTransactionReceiptFields :=
  ((OpReceiptFieldsBuilder.new timestamp).l1_block_info chain_spec tx
      l1_block_info).map
    fun b => ((b.deposit_nonce' nonce).deposit_version version).build

/-- Timestamp of OP Mainnet block 124665056 (`receipt.rs` line 213). -/
def BLOCK_124665056_TIMESTAMP : Nat := 1724928889

/-- Modelled from the spec: the OP Mainnet hardfork activation schedule as
queried by the dispatch ladder — Bedrock and Regolith active throughout the
timestamp range of interest, Ecotone from 1710374401, Fjord from 1720627201
(the concrete scenario's timestamp lies after Fjord activation, as the
source test asserts). -/
def OP_MAINNET : ChainSpec :=
  { is_bedrock_active_at_timestamp := fun _ => true
    is_regolith_active_at_timestamp := fun _ => true
    is_ecotone_active_at_timestamp := fun t => decide (1710374401 ≤ t)
    is_fjord_active_at_timestamp := fun t => decide (1720627201 ≤ t) }

/-- The documented transaction at index 1 of block 124665056: a non-deposit
(type-2) transaction with the documented envelope bytes. -/
def tx_1 : TransactionSigned :=
  { envelope_encoded := TX_1_OP_MAINNET_BLOCK_124665056
    is_deposit := false }

/-- Modelled from the spec: the L1 context extracted from the block's first
system transaction (`setL1BlockValuesEcotone` calldata documented in the
source): base fee `0x3ef12787`, base-fee scalar `0x146b`, blob base fee 1,
blob scalar `0xf79c5`; Ecotone-format contexts carry no legacy overhead. -/
def block_124665056_l1_block_info : revm.L1BlockInfo :=
  { l1_base_fee := 1055991687
    l1_fee_overhead := none
    l1_base_fee_scalar := 5227
    l1_blob_base_fee := some 1
    l1_blob_base_fee_scalar := some 1014213
    empty_scalars := false }

/-- The expected receipt fields for transaction 1 of block 124665056
(`receipt.rs` lines 218-231). -/
def TX_META_TX_1_OP_MAINNET_BLOCK_124665056 :
    op_alloy.OptimismTransactionReceiptFields :=
  { l1_block_info :=
      { l1_gas_price := some 1055991687
        l1_gas_used := some 4471
        l1_fee := some 24681034813
        l1_fee_scalar := none
        l1_base_fee_scalar := some 5227
        l1_blob_base_fee := some 1
        l1_blob_base_fee_scalar := some 1014213 }
    deposit_nonce := none
    deposit_receipt_version := none }

/-- Chain spec with every queried hardfork active at every timestamp (used
for concrete witnesses). -/
def csAllForks : ChainSpec :=
  { is_bedrock_active_at_timestamp := fun _ => true
    is_regolith_active_at_timestamp := fun _ => true
    is_ecotone_active_at_timestamp := fun _ => true
    is_fjord_active_at_timestamp := fun _ => true }

/-- Chain spec with no queried hardfork active at any timestamp (used to
witness the error paths). -/
def csNoForks : ChainSpec :=
  { is_bedrock_active_at_timestamp := fun _ => false
    is_regolith_active_at_timestamp := fun _ => false
    is_ecotone_active_at_timestamp := fun _ => false
    is_fjord_active_at_timestamp := fun _ => false }

/-- A deposit transaction with empty envelope (used for concrete witnesses). -/
def txEmptyDeposit : TransactionSigned :=
  { envelope_encoded := [], is_deposit := true }

/-- A minimal non-deposit transaction with a single nonzero byte. -/
def txOneByte : TransactionSigned :=
  { envelope_encoded := [1], is_deposit := false }

/-- A minimal L1 context: all numeric fields zero, no optional fields. -/
def infoSmall : revm.L1BlockInfo :=
  { l1_base_fee := 0
    l1_fee_overhead := none
    l1_base_fee_scalar := 0
    l1_blob_base_fee := none
    l1_blob_base_fee_scalar := none
    empty_scalars := false }

/-- An L1 context carrying a legacy fee overhead of 5 (used to exhibit the
overhead addition). -/
def infoOverhead : revm.L1BlockInfo :=
  { l1_base_fee := 0
    l1_fee_overhead := some 5
    l1_base_fee_scalar := 0
    l1_blob_base_fee := none
    l1_blob_base_fee_scalar := none
    empty_scalars := false }

/-- An L1 context whose every numeric field exceeds the `u128` output width
(used to witness saturation at every narrowing point). -/
def infoHuge : revm.L1BlockInfo :=
  { l1_base_fee := 2 ^ 200
    l1_fee_overhead := some (2 ^ 200)
    l1_base_fee_scalar := 2 ^ 200
    l1_blob_base_fee := some (2 ^ 200)
    l1_blob_base_fee_scalar := some (2 ^ 200)
    empty_scalars := false }

/-- The builder state produced by the L1-context step from `csAllForks`,
timestamp 0, `txEmptyDeposit` and `infoSmall`. -/
def bSmall : OpReceiptFieldsBuilder :=
  { l1_block_timestamp := 0
    l1_fee := some 0
    l1_data_gas := some 1600
    l1_fee_scalar := none
    l1_base_fee := some 0
    deposit_nonce := none
    deposit_receipt_version := none
    l1_base_fee_scalar := some 0
    l1_blob_base_fee := none
    l1_blob_base_fee_scalar := none }

/-- The builder state produced by the L1-context step from `csAllForks`,
timestamp 0, `txEmptyDeposit` and `infoOverhead`: the overhead of 5 is added
to the computed data gas of 1600 although Ecotone is active. -/
def bOverhead : OpReceiptFieldsBuilder :=
  { bSmall with l1_data_gas := some 1605 }

/-- The builder state produced by the L1-context step from `csAllForks`,
timestamp 0, `txOneByte` and `infoHuge`: every narrowing point clamps to
`U128MAX`. -/
def bHuge : OpReceiptFieldsBuilder :=
  { l1_block_timestamp := 0
    l1_fee := some U128MAX
    l1_data_gas := some U128MAX
    l1_fee_scalar := none
    l1_base_fee := some U128MAX
    deposit_nonce := none
    deposit_receipt_version := none
    l1_base_fee_scalar := some U128MAX
    l1_blob_base_fee := some U128MAX
    l1_blob_base_fee_scalar := some U128MAX }

/-- The receipt metadata produced by `build_op_receipt_meta` from
`csAllForks`, `txEmptyDeposit`, `infoSmall` and a receipt carrying deposit
nonce 3 and deposit receipt version 1. -/
def metaDeposit : op_alloy.OptimismTransactionReceiptFields :=
  { l1_block_info :=
      { l1_gas_price := some 0
        l1_gas_used := some 1600
        l1_fee := some 0
        l1_fee_scalar := none
        l1_base_fee_scalar := some 0
        l1_blob_base_fee := none
        l1_blob_base_fee_scalar := none }
    deposit_nonce := some 3
    deposit_receipt_version := some 1 }

/-! Helper lemmas. -/

/-- Packing distributes over list concatenation, shifting the second part by
the first part's bit length. -/
theorem fastlz.packBytes_append (xs ys : List Nat) :
    fastlz.packBytes (xs ++ ys)
      = fastlz.packBytes xs + (fastlz.packBytes ys <<< (8 * xs.length)) := by
  rw [Nat.shiftLeft_eq]
  induction xs with
  | nil => simp [fastlz.packBytes]
  | cons x xs ih =>
    simp only [fastlz.packBytes, List.foldr_cons, List.cons_append, List.length_cons] at *
    rw [ih, Nat.mul_add, show 8 * (xs.length + 1) = 8 * xs.length + 8 by ring, pow_add]
    ring

set_option maxRecDepth 40000 in
/-- FastLZ compressed-size estimate of the documented transaction. -/
theorem flz_tx1 : fastlz.flz_compress_len TX_1_OP_MAINNET_BLOCK_124665056 = 385 := by
  unfold fastlz.flz_compress_len TX_1_OP_MAINNET_BLOCK_124665056
  simp only [fastlz.packBytes_append, List.length_append]
  decide

/-- Fjord estimated size of the documented transaction:
`max(100000000, 385 * 836500 - 42585600)`. -/
theorem est_size_tx1 :
    revm.tx_estimated_size_fjord TX_1_OP_MAINNET_BLOCK_124665056 = 279466900 := by
  unfold revm.tx_estimated_size_fjord
  rw [flz_tx1]
  decide

set_option maxRecDepth 40000 in
/-- L1 data fee of the documented transaction under the documented context. -/
theorem fee_tx1 :
    revm.L1BlockInfo.l1_tx_data_fee block_124665056_l1_block_info OP_MAINNET
      BLOCK_124665056_TIMESTAMP TX_1_OP_MAINNET_BLOCK_124665056 false
      = Except.ok 24681034813 := by
  unfold revm.L1BlockInfo.l1_tx_data_fee revm.specIdAtTimestamp
    revm.L1BlockInfo.calculate_tx_l1_cost revm.L1BlockInfo.calculate_tx_l1_cost_fjord
  rw [est_size_tx1]
  decide

set_option maxRecDepth 40000 in
/-- L1 data gas of the documented transaction under the documented context. -/
theorem gas_tx1 :
    revm.L1BlockInfo.l1_data_gas block_124665056_l1_block_info OP_MAINNET
      BLOCK_124665056_TIMESTAMP TX_1_OP_MAINNET_BLOCK_124665056
      = Except.ok 4471 := by
  unfold revm.L1BlockInfo.l1_data_gas revm.specIdAtTimestamp revm.L1BlockInfo.data_gas
  rw [est_size_tx1]
  decide

/-! Claim theorems. -/

/-- C1: for every chain spec, transaction and L1 context, after a successful
`l1_block_info` application at a timestamp where Ecotone is not active the
built output has `l1_fee_scalar` present and equal to the context's
`l1_base_fee_scalar / 1000000`; at a timestamp where Ecotone is active
`l1_fee_scalar` is absent, `l1_base_fee_scalar` is present, and each blob
field is present iff the supplied context carries it. -/
theorem hardfork_branching (cs : ChainSpec) (t : Nat) (tx : TransactionSigned)
    (info : revm.L1BlockInfo) (b : OpReceiptFieldsBuilder)
    (hb : (OpReceiptFieldsBuilder.new t).l1_block_info cs tx info = .ok b) :
    (cs.is_ecotone_active_at_timestamp t = false →
        b.build.l1_block_info.l1_fee_scalar
          = some ((info.l1_base_fee_scalar : ℚ) / 1000000))
    ∧ (cs.is_ecotone_active_at_timestamp t = true →
        b.build.l1_block_info.l1_fee_scalar = none
        ∧ b.build.l1_block_info.l1_base_fee_scalar.isSome = true
        ∧ b.build.l1_block_info.l1_blob_base_fee.isSome
            = info.l1_blob_base_fee.isSome
        ∧ b.build.l1_block_info.l1_blob_base_fee_scalar.isSome
            = info.l1_blob_base_fee_scalar.isSome) := by
  unfold OpReceiptFieldsBuilder.l1_block_info at hb
  simp only [OpReceiptFieldsBuilder.new, OpReceiptFieldsBuilder.default] at hb
  split at hb
  · exact absurd hb (by simp)
  · split at hb
    · exact absurd hb (by simp)
    · cases hb
      constructor
      · intro hec
        simp [OpReceiptFieldsBuilder.build, OpReceiptFieldsBuilder.new,
          OpReceiptFieldsBuilder.default, hec]
      · intro hec
        simp [OpReceiptFieldsBuilder.build, OpReceiptFieldsBuilder.new,
          OpReceiptFieldsBuilder.default, hec, Option.isSome_map]

/-- C1 witness: the branching theorem applied at `csAllForks`, timestamp 0,
`txEmptyDeposit`, `infoSmall`, builder state `bSmall`. -/
theorem hardfork_branching_witness :
    (csAllForks.is_ecotone_active_at_timestamp 0 = false →
        bSmall.build.l1_block_info.l1_fee_scalar
          = some ((infoSmall.l1_base_fee_scalar : ℚ) / 1000000))
    ∧ (csAllForks.is_ecotone_active_at_timestamp 0 = true →
        bSmall.build.l1_block_info.l1_fee_scalar = none
        ∧ bSmall.build.l1_block_info.l1_base_fee_scalar.isSome = true
        ∧ bSmall.build.l1_block_info.l1_blob_base_fee.isSome
            = infoSmall.l1_blob_base_fee.isSome
        ∧ bSmall.build.l1_block_info.l1_blob_base_fee_scalar.isSome
            = infoSmall.l1_blob_base_fee_scalar.isSome) :=
  hardfork_branching csAllForks 0 txEmptyDeposit infoSmall bSmall (by decide)

/-- C2 counterexample: with Ecotone active at the timestamp and a context
carrying a legacy fee overhead of 5, the gas-size formula succeeds with 1600
yet the builder stores 1605 — the overhead is added although the timestamp is
not pre-Ecotone, refuting "incremented ... only when the timestamp is
pre-Ecotone". -/
theorem l1_data_gas_overhead_counterexample :
    csAllForks.is_ecotone_active_at_timestamp 0 = true
    ∧ revm.L1BlockInfo.l1_data_gas infoOverhead csAllForks 0
        txEmptyDeposit.envelope_encoded = Except.ok 1600
    ∧ ((OpReceiptFieldsBuilder.new 0).l1_block_info csAllForks txEmptyDeposit
        infoOverhead).map (fun b => b.l1_data_gas) = Except.ok (some 1605)
    ∧ (1605 : Nat) ≠ 1600 := by
  refine ⟨rfl, by decide, by decide, by decide⟩

/-- C2 (amended): whenever the gas formula succeeds and `l1_block_info`
succeeds, `l1_data_gas` is the computed L1 data gas plus the context's fee
overhead when the context carries one (zero when absent) — regardless of the
timestamp — with the addition clamped at `U256MAX` and the narrowing clamped
at `U128MAX` rather than wrapping or erroring. -/
theorem l1_data_gas_overhead_amended (cs : ChainSpec) (t : Nat)
    (tx : TransactionSigned) (info : revm.L1BlockInfo) (g : Nat)
    (b : OpReceiptFieldsBuilder)
    (hg : info.l1_data_gas cs t tx.envelope_encoded = .ok g)
    (hb : (OpReceiptFieldsBuilder.new t).l1_block_info cs tx info = .ok b) :
    b.l1_data_gas
      = some (min (min (g + info.l1_fee_overhead.getD 0) U256MAX) U128MAX) := by
  unfold OpReceiptFieldsBuilder.l1_block_info at hb
  simp only [OpReceiptFieldsBuilder.new, OpReceiptFieldsBuilder.default] at hb
  split at hb
  · exact absurd hb (by simp)
  · split at hb
    · exact absurd hb (by simp)
    · next gas heq =>
      rw [hg] at heq
      cases heq
      cases hb
      simp [saturatingTo128, u256satAdd]

/-- C2 witness: the amended theorem applied at `csAllForks`, timestamp 0,
`txEmptyDeposit`, `infoOverhead`, computed gas 1600, builder state
`bOverhead`. -/
theorem l1_data_gas_overhead_amended_witness :
    bOverhead.l1_data_gas
      = some (min (min (1600 + infoOverhead.l1_fee_overhead.getD 0) U256MAX) U128MAX) :=
  l1_data_gas_overhead_amended csAllForks 0 txEmptyDeposit infoOverhead 1600
    bOverhead (by decide) (by decide)

/-- C3: on the documented OP Mainnet block 124665056 inputs (timestamp
1724928889, the documented raw transaction and extracted L1 context, with
Ecotone and Fjord active) the builder produces exactly
`l1GasPrice = 1055991687`, `l1GasUsed = 4471`, `l1Fee = 24681034813`,
`l1FeeScalar` absent, `l1BaseFeeScalar = 5227`, `l1BlobBaseFee = 1`,
`l1BlobBaseFeeScalar = 1014213`, `depositNonce` absent and
`depositReceiptVersion` absent. -/
theorem op_receipt_fields_from_block_and_tx :
    OP_MAINNET.is_ecotone_active_at_timestamp BLOCK_124665056_TIMESTAMP = true
    ∧ OP_MAINNET.is_fjord_active_at_timestamp BLOCK_124665056_TIMESTAMP = true
    ∧ ((OpReceiptFieldsBuilder.new BLOCK_124665056_TIMESTAMP).l1_block_info
          OP_MAINNET tx_1 block_124665056_l1_block_info).map
        OpReceiptFieldsBuilder.build
      = Except.ok TX_META_TX_1_OP_MAINNET_BLOCK_124665056 := by
  refine ⟨by decide, by decide, ?_⟩
  unfold OpReceiptFieldsBuilder.l1_block_info
  dsimp only [tx_1, OpReceiptFieldsBuilder.new, OpReceiptFieldsBuilder.default]
  rw [fee_tx1, gas_tx1]
  decide

/-- C4: every width-narrowing point of `l1_block_info` saturates — whenever a
computed fee or gas result or a context value exceeds `U128MAX`, the stored
field is exactly `U128MAX` (never a wrapped value and never an error), at all
six narrowing points. -/
theorem narrowing_saturates (cs : ChainSpec) (t : Nat) (tx : TransactionSigned)
    (info : revm.L1BlockInfo) (b : OpReceiptFieldsBuilder)
    (fee g blobFee blobScalar : Nat)
    (hb : (OpReceiptFieldsBuilder.new t).l1_block_info cs tx info = .ok b)
    (hfee : info.l1_tx_data_fee cs t tx.envelope_encoded tx.is_deposit = .ok fee)
    (hg : info.l1_data_gas cs t tx.envelope_encoded = .ok g)
    (hblob : info.l1_blob_base_fee = some blobFee)
    (hblobS : info.l1_blob_base_fee_scalar = some blobScalar)
    (h1 : U128MAX < fee)
    (h2 : U128MAX < u256satAdd g (info.l1_fee_overhead.getD 0))
    (h3 : U128MAX < info.l1_base_fee)
    (h4 : U128MAX < info.l1_base_fee_scalar)
    (h5 : U128MAX < blobFee)
    (h6 : U128MAX < blobScalar) :
    b.l1_fee = some U128MAX
    ∧ b.l1_data_gas = some U128MAX
    ∧ b.l1_base_fee = some U128MAX
    ∧ b.l1_base_fee_scalar = some U128MAX
    ∧ b.l1_blob_base_fee = some U128MAX
    ∧ b.l1_blob_base_fee_scalar = some U128MAX := by
  unfold OpReceiptFieldsBuilder.l1_block_info at hb
  simp only [OpReceiptFieldsBuilder.new, OpReceiptFieldsBuilder.default] at hb
  split at hb
  · exact absurd hb (by simp)
  · next fee' hfee' =>
    split at hb
    · exact absurd hb (by simp)
    · next gas' hg' =>
      rw [hfee] at hfee'
      cases hfee'
      rw [hg] at hg'
      cases hg'
      cases hb
      refine ⟨?_, ?_, ?_, ?_, ?_, ?_⟩ <;>
        simp [saturatingTo128, hblob, hblobS] <;> omega

/-- C4 witness: the saturation theorem applied at `csAllForks`, timestamp 0,
`txOneByte`, `infoHuge`, builder state `bHuge`, fee `U256MAX / 10 ^ 12`,
gas 1600, blob fields `2 ^ 200`. -/
theorem narrowing_saturates_witness :
    bHuge.l1_fee = some U128MAX
    ∧ bHuge.l1_data_gas = some U128MAX
    ∧ bHuge.l1_base_fee = some U128MAX
    ∧ bHuge.l1_base_fee_scalar = some U128MAX
    ∧ bHuge.l1_blob_base_fee = some U128MAX
    ∧ bHuge.l1_blob_base_fee_scalar = some U128MAX :=
  narrowing_saturates csAllForks 0 txOneByte infoHuge bHuge
    (U256MAX / 1000000000000) 1600 (2 ^ 200) (2 ^ 200)
    (by decide) (by decide) (by decide) (by decide) (by decide) (by decide)
    (by decide) (by decide) (by decide) (by decide) (by decide)

/-- C5: `l1_block_info` fails exactly when the underlying fee formula fails
(yielding `L1BlockFeeError`) or the gas formula fails (yielding
`L1BlockGasError`, with the fee formula checked first); and the whole
receipt-building operation `build_op_receipt_meta` yields an error — and no
output — exactly when its L1-context step does, propagating the error
verbatim. -/
theorem error_propagation (cs : ChainSpec) (t : Nat) (tx : TransactionSigned)
    (info : revm.L1BlockInfo) :
    (((OpReceiptFieldsBuilder.new t).l1_block_info cs tx info).isOk
        = ((info.l1_tx_data_fee cs t tx.envelope_encoded tx.is_deposit).isOk
            && (info.l1_data_gas cs t tx.envelope_encoded).isOk))
    ∧ ((OpReceiptFieldsBuilder.new t).l1_block_info cs tx info
          = .error .L1BlockFeeError
        ↔ (info.l1_tx_data_fee cs t tx.envelope_encoded tx.is_deposit).isOk
            = false)
    ∧ ((OpReceiptFieldsBuilder.new t).l1_block_info cs tx info
          = .error .L1BlockGasError
        ↔ (info.l1_tx_data_fee cs t tx.envelope_encoded tx.is_deposit).isOk
            = true
          ∧ (info.l1_data_gas cs t tx.envelope_encoded).isOk = false)
    ∧ (∀ (receipt : Receipt) (e : OpEthApiError),
        build_op_receipt_meta cs tx info receipt = .error e
        ↔ OpReceiptFieldsBuilder.default.l1_block_info cs tx info
            = .error e) := by
  refine ⟨?_, ?_, ?_, ?_⟩
  · cases hfee : info.l1_tx_data_fee cs t tx.envelope_encoded tx.is_deposit <;>
      cases hgas : info.l1_data_gas cs t tx.envelope_encoded <;>
      simp [OpReceiptFieldsBuilder.l1_block_info, OpReceiptFieldsBuilder.new,
        OpReceiptFieldsBuilder.default, hfee, hgas, Except.isOk, Except.toBool]
  · cases hfee : info.l1_tx_data_fee cs t tx.envelope_encoded tx.is_deposit <;>
      cases hgas : info.l1_data_gas cs t tx.envelope_encoded <;>
      simp [OpReceiptFieldsBuilder.l1_block_info, OpReceiptFieldsBuilder.new,
        OpReceiptFieldsBuilder.default, hfee, hgas, Except.isOk, Except.toBool]
  · cases hfee : info.l1_tx_data_fee cs t tx.envelope_encoded tx.is_deposit <;>
      cases hgas : info.l1_data_gas cs t tx.envelope_encoded <;>
      simp [OpReceiptFieldsBuilder.l1_block_info, OpReceiptFieldsBuilder.new,
        OpReceiptFieldsBuilder.default, hfee, hgas, Except.isOk, Except.toBool]
  · intro receipt e
    cases hx : OpReceiptFieldsBuilder.default.l1_block_info cs tx info <;>
      simp [build_op_receipt_meta, hx, Except.map]

/-- C6: building without applying the L1-context step yields an output with
all seven fee-related fields absent (and `build` is total, so no error can
be raised). -/
theorem unset_on_skip (t : Nat) :
    ((OpReceiptFieldsBuilder.new t).build).l1_block_info.l1_gas_price = none
    ∧ ((OpReceiptFieldsBuilder.new t).build).l1_block_info.l1_gas_used = none
    ∧ ((OpReceiptFieldsBuilder.new t).build).l1_block_info.l1_fee = none
    ∧ ((OpReceiptFieldsBuilder.new t).build).l1_block_info.l1_fee_scalar = none
    ∧ ((OpReceiptFieldsBuilder.new t).build).l1_block_info.l1_base_fee_scalar
        = none
    ∧ ((OpReceiptFieldsBuilder.new t).build).l1_block_info.l1_blob_base_fee
        = none
    ∧ ((OpReceiptFieldsBuilder.new t).build).l1_block_info.l1_blob_base_fee_scalar
        = none :=
  ⟨rfl, rfl, rfl, rfl, rfl, rfl, rfl⟩

/-- C7: the finalized output of `build_op_receipt_meta` carries exactly the
receipt's optional deposit nonce and deposit receipt version, untransformed;
in particular a receipt carrying neither (a non-deposit transaction) yields
both absent. -/
theorem deposit_pass_through (cs : ChainSpec) (tx : TransactionSigned)
    (info : revm.L1BlockInfo) (receipt : Receipt)
    (out : op_alloy.OptimismTransactionReceiptFields)
    (h : build_op_receipt_meta cs tx info receipt = .ok out) :
    out.deposit_nonce = receipt.deposit_nonce
    ∧ out.deposit_receipt_version = receipt.deposit_receipt_version := by
  unfold build_op_receipt_meta at h
  cases hx : OpReceiptFieldsBuilder.default.l1_block_info cs tx info with
  | error e => rw [hx] at h; simp [Except.map] at h
  | ok b =>
    rw [hx] at h
    simp only [Except.map, Except.ok.injEq] at h
    cases h
    exact ⟨rfl, rfl⟩

/-- C7 witness: the pass-through theorem applied at `csAllForks`,
`txEmptyDeposit`, `infoSmall` and a receipt carrying nonce 3 and version 1,
with output `metaDeposit`. -/
theorem deposit_pass_through_witness :
    metaDeposit.deposit_nonce = (Receipt.mk (some 3) (some 1)).deposit_nonce
    ∧ metaDeposit.deposit_receipt_version
        = (Receipt.mk (some 3) (some 1)).deposit_receipt_version :=
  deposit_pass_through csAllForks txEmptyDeposit infoSmall
    (Receipt.mk (some 3) (some 1)) metaDeposit (by decide)

/-- C8: the full pipeline `new → l1_block_info → deposit_nonce →
deposit_version → build` is deterministic — two runs on equal inputs yield
equal outputs (the pipeline is a pure function of its inputs). -/
theorem pipeline_deterministic (cs₁ cs₂ : ChainSpec) (t₁ t₂ : Nat)
    (tx₁ tx₂ : TransactionSigned) (info₁ info₂ : revm.L1BlockInfo)
    (n₁ n₂ v₁ v₂ : Option Nat)
    (h : (cs₁, t₁, tx₁, info₁, n₁, v₁) = (cs₂, t₂, tx₂, info₂, n₂, v₂)) :
    receipt_pipeline cs₁ t₁ tx₁ info₁ n₁ v₁
      = receipt_pipeline cs₂ t₂ tx₂ info₂ n₂ v₂ := by
  simp only [Prod.mk.injEq] at h
  obtain ⟨h1, h2, h3, h4, h5, h6⟩ := h
  subst h1; subst h2; subst h3; subst h4; subst h5; subst h6
  rfl

/-- C8 witness: determinism applied at two identical concrete input tuples. -/
theorem pipeline_deterministic_witness :
    receipt_pipeline csAllForks 0 txEmptyDeposit infoSmall (some 1) (some 2)
      = receipt_pipeline csAllForks 0 txEmptyDeposit infoSmall (some 1) (some 2) :=
  pipeline_deterministic csAllForks csAllForks 0 0 txEmptyDeposit txEmptyDeposit
    infoSmall infoSmall (some 1) (some 1) (some 2) (some 2) rfl

/-- C9 counterexample: builder steps can overwrite — applying the
deposit-nonce step twice, first with `some 1` then with `none`, clears the
field that the first application had set, refuting "once set ... never
cleared or overwritten ... for every sequence of builder operations". -/
theorem builder_monotonic_counterexample :
    (((OpReceiptFieldsBuilder.new 0).deposit_nonce' (some 1)).deposit_nonce
        = some 1)
    ∧ ((((OpReceiptFieldsBuilder.new 0).deposit_nonce' (some 1)).deposit_nonce'
          none).deposit_nonce = none) :=
  ⟨rfl, rfl⟩

/-- C9 (amended): each builder step writes only its own fields — the
deposit-nonce step changes nothing but `deposit_nonce`, the deposit-version
step nothing but `deposit_receipt_version`, and a successful L1-context step
leaves the timestamp and both deposit fields unchanged — so along the
pipeline, in which each step is applied at most once, a field once set is
never cleared or overwritten by the other steps. -/
theorem builder_monotonic_amended (b : OpReceiptFieldsBuilder)
    (n v : Option Nat) (cs : ChainSpec) (tx : TransactionSigned)
    (info : revm.L1BlockInfo) (b' : OpReceiptFieldsBuilder)
    (hb : b.l1_block_info cs tx info = .ok b') :
    ((b.deposit_nonce' n).l1_block_timestamp = b.l1_block_timestamp
      ∧ (b.deposit_nonce' n).l1_fee = b.l1_fee
      ∧ (b.deposit_nonce' n).l1_data_gas = b.l1_data_gas
      ∧ (b.deposit_nonce' n).l1_fee_scalar = b.l1_fee_scalar
      ∧ (b.deposit_nonce' n).l1_base_fee = b.l1_base_fee
      ∧ (b.deposit_nonce' n).deposit_receipt_version = b.deposit_receipt_version
      ∧ (b.deposit_nonce' n).l1_base_fee_scalar = b.l1_base_fee_scalar
      ∧ (b.deposit_nonce' n).l1_blob_base_fee = b.l1_blob_base_fee
      ∧ (b.deposit_nonce' n).l1_blob_base_fee_scalar = b.l1_blob_base_fee_scalar)
    ∧ ((b.deposit_version v).l1_block_timestamp = b.l1_block_timestamp
      ∧ (b.deposit_version v).l1_fee = b.l1_fee
      ∧ (b.deposit_version v).l1_data_gas = b.l1_data_gas
      ∧ (b.deposit_version v).l1_fee_scalar = b.l1_fee_scalar
      ∧ (b.deposit_version v).l1_base_fee = b.l1_base_fee
      ∧ (b.deposit_version v).deposit_nonce = b.deposit_nonce
      ∧ (b.deposit_version v).l1_base_fee_scalar = b.l1_base_fee_scalar
      ∧ (b.deposit_version v).l1_blob_base_fee = b.l1_blob_base_fee
      ∧ (b.deposit_version v).l1_blob_base_fee_scalar = b.l1_blob_base_fee_scalar)
    ∧ (b'.l1_block_timestamp = b.l1_block_timestamp
      ∧ b'.deposit_nonce = b.deposit_nonce
      ∧ b'.deposit_receipt_version = b.deposit_receipt_version) := by
  refine ⟨⟨rfl, rfl, rfl, rfl, rfl, rfl, rfl, rfl, rfl⟩,
    ⟨rfl, rfl, rfl, rfl, rfl, rfl, rfl, rfl, rfl⟩, ?_⟩
  unfold OpReceiptFieldsBuilder.l1_block_info at hb
  dsimp only [] at hb
  split at hb
  · exact absurd hb (by simp)
  · split at hb
    · exact absurd hb (by simp)
    · cases hb
      exact ⟨rfl, rfl, rfl⟩

/-- C9 witness: the frame theorem applied at `bSmall`, nonce `some 7`,
version `some 9`, `csAllForks`, `txEmptyDeposit`, `infoSmall` and the
resulting successful builder state. -/
theorem builder_monotonic_amended_witness :
    ((bSmall.deposit_nonce' (some 7)).l1_block_timestamp = bSmall.l1_block_timestamp
      ∧ (bSmall.deposit_nonce' (some 7)).l1_fee = bSmall.l1_fee
      ∧ (bSmall.deposit_nonce' (some 7)).l1_data_gas = bSmall.l1_data_gas
      ∧ (bSmall.deposit_nonce' (some 7)).l1_fee_scalar = bSmall.l1_fee_scalar
      ∧ (bSmall.deposit_nonce' (some 7)).l1_base_fee = bSmall.l1_base_fee
      ∧ (bSmall.deposit_nonce' (some 7)).deposit_receipt_version
          = bSmall.deposit_receipt_version
      ∧ (bSmall.deposit_nonce' (some 7)).l1_base_fee_scalar
          = bSmall.l1_base_fee_scalar
      ∧ (bSmall.deposit_nonce' (some 7)).l1_blob_base_fee = bSmall.l1_blob_base_fee
      ∧ (bSmall.deposit_nonce' (some 7)).l1_blob_base_fee_scalar
          = bSmall.l1_blob_base_fee_scalar)
    ∧ ((bSmall.deposit_version (some 9)).l1_block_timestamp
          = bSmall.l1_block_timestamp
      ∧ (bSmall.deposit_version (some 9)).l1_fee = bSmall.l1_fee
      ∧ (bSmall.deposit_version (some 9)).l1_data_gas = bSmall.l1_data_gas
      ∧ (bSmall.deposit_version (some 9)).l1_fee_scalar = bSmall.l1_fee_scalar
      ∧ (bSmall.deposit_version (some 9)).l1_base_fee = bSmall.l1_base_fee
      ∧ (bSmall.deposit_version (some 9)).deposit_nonce = bSmall.deposit_nonce
      ∧ (bSmall.deposit_version (some 9)).l1_base_fee_scalar
          = bSmall.l1_base_fee_scalar
      ∧ (bSmall.deposit_version (some 9)).l1_blob_base_fee
          = bSmall.l1_blob_base_fee
      ∧ (bSmall.deposit_version (some 9)).l1_blob_base_fee_scalar
          = bSmall.l1_blob_base_fee_scalar)
    ∧ (bSmall.l1_block_timestamp = bSmall.l1_block_timestamp
      ∧ bSmall.deposit_nonce = bSmall.deposit_nonce
      ∧ bSmall.deposit_receipt_version = bSmall.deposit_receipt_version) :=
  builder_monotonic_amended bSmall (some 7) (some 9) csAllForks txEmptyDeposit
    infoSmall bSmall (by decide)

/-- C10: `build` is a pure projection — every output field equals the
corresponding accumulator field, with `l1_base_fee` emitted as `l1_gas_price`
and `l1_data_gas` as `l1_gas_used`; only the stored timestamp is discarded
(the output does not depend on it), and no field is altered or invented. -/
theorem build_pure_projection (b : OpReceiptFieldsBuilder) :
    b.build.l1_block_info.l1_gas_price = b.l1_base_fee
    ∧ b.build.l1_block_info.l1_gas_used = b.l1_data_gas
    ∧ b.build.l1_block_info.l1_fee = b.l1_fee
    ∧ b.build.l1_block_info.l1_fee_scalar = b.l1_fee_scalar
    ∧ b.build.l1_block_info.l1_base_fee_scalar = b.l1_base_fee_scalar
    ∧ b.build.l1_block_info.l1_blob_base_fee = b.l1_blob_base_fee
    ∧ b.build.l1_block_info.l1_blob_base_fee_scalar = b.l1_blob_base_fee_scalar
    ∧ b.build.deposit_nonce = b.deposit_nonce
    ∧ b.build.deposit_receipt_version = b.deposit_receipt_version
    ∧ ∀ t : Nat,
        ({ b with l1_block_timestamp := t } : OpReceiptFieldsBuilder).build
          = b.build :=
  ⟨rfl, rfl, rfl, rfl, rfl, rfl, rfl, rfl, rfl, fun _ => rfl⟩

/-- C5 witness: error propagation applied at `csNoForks` (no hardfork active,
so both formulas fail), timestamp 0, `txOneByte`, `infoSmall`. -/
theorem error_propagation_witness :
    (((OpReceiptFieldsBuilder.new 0).l1_block_info csNoForks txOneByte
          infoSmall).isOk
        = ((infoSmall.l1_tx_data_fee csNoForks 0 txOneByte.envelope_encoded
              txOneByte.is_deposit).isOk
            && (infoSmall.l1_data_gas csNoForks 0
                txOneByte.envelope_encoded).isOk))
    ∧ ((OpReceiptFieldsBuilder.new 0).l1_block_info csNoForks txOneByte
          infoSmall = .error .L1BlockFeeError
        ↔ (infoSmall.l1_tx_data_fee csNoForks 0 txOneByte.envelope_encoded
            txOneByte.is_deposit).isOk = false)
    ∧ ((OpReceiptFieldsBuilder.new 0).l1_block_info csNoForks txOneByte
          infoSmall = .error .L1BlockGasError
        ↔ (infoSmall.l1_tx_data_fee csNoForks 0 txOneByte.envelope_encoded
            txOneByte.is_deposit).isOk = true
          ∧ (infoSmall.l1_data_gas csNoForks 0
              txOneByte.envelope_encoded).isOk = false)
    ∧ (∀ (receipt : Receipt) (e : OpEthApiError),
        build_op_receipt_meta csNoForks txOneByte infoSmall receipt = .error e
        ↔ OpReceiptFieldsBuilder.default.l1_block_info csNoForks txOneByte
            infoSmall = .error e) :=
  error_propagation csNoForks 0 txOneByte infoSmall

/-- C6 witness: the unset-on-skip theorem applied at timestamp 5. -/
theorem unset_on_skip_witness :
    ((OpReceiptFieldsBuilder.new 5).build).l1_block_info.l1_gas_price = none
    ∧ ((OpReceiptFieldsBuilder.new 5).build).l1_block_info.l1_gas_used = none
    ∧ ((OpReceiptFieldsBuilder.new 5).build).l1_block_info.l1_fee = none
    ∧ ((OpReceiptFieldsBuilder.new 5).build).l1_block_info.l1_fee_scalar = none
    ∧ ((OpReceiptFieldsBuilder.new 5).build).l1_block_info.l1_base_fee_scalar
        = none
    ∧ ((OpReceiptFieldsBuilder.new 5).build).l1_block_info.l1_blob_base_fee
        = none
    ∧ ((OpReceiptFieldsBuilder.new 5).build).l1_block_info.l1_blob_base_fee_scalar
        = none :=
  unset_on_skip 5

/-- C10 witness: the projection theorem applied at the builder state
`bSmall`. -/
theorem build_pure_projection_witness :
    bSmall.build.l1_block_info.l1_gas_price = bSmall.l1_base_fee
    ∧ bSmall.build.l1_block_info.l1_gas_used = bSmall.l1_data_gas
    ∧ bSmall.build.l1_block_info.l1_fee = bSmall.l1_fee
    ∧ bSmall.build.l1_block_info.l1_fee_scalar = bSmall.l1_fee_scalar
    ∧ bSmall.build.l1_block_info.l1_base_fee_scalar = bSmall.l1_base_fee_scalar
    ∧ bSmall.build.l1_block_info.l1_blob_base_fee = bSmall.l1_blob_base_fee
    ∧ bSmall.build.l1_block_info.l1_blob_base_fee_scalar
        = bSmall.l1_blob_base_fee_scalar
    ∧ bSmall.build.deposit_nonce = bSmall.deposit_nonce
    ∧ bSmall.build.deposit_receipt_version = bSmall.deposit_receipt_version
    ∧ ∀ t : Nat,
        ({ bSmall with l1_block_timestamp := t } : OpReceiptFieldsBuilder).build
          = bSmall.build :=
  build_pure_projection bSmall
